import Mathlib

/-!
# read-csv-turbo: verified model of the range-resolution core

A shallow embedding of `readcsvturbo/readcsvturbo.py`.  A file is modelled
as its list of physical lines (`List String`); `get_total_lines` is the
length of that list.  The POSIX extraction branch of the source is modelled:
`sed -n 'a,bp'` (which prints only line `a` when `b < a`), and the two-stage
`tail -n +k | tail -n n` pipeline.  Python `str.strip()` is modelled on the
ASCII whitespace characters.  The pandas parser is kept abstract: the
`DataFrame` type records which call `parse_csv_content` hands to
`pandas.read_csv` (or that it returns an empty frame), which is all the
range-resolution logic determines.
-/

namespace ReadCsvTurbo

/-- ASCII whitespace, as stripped by Python `str.strip()`. -/
def isPySpace (c : Char) : Bool :=
  c = ' ' || c = '\t' || c = '\n' || c = '\x0d' || c = '\x0b' || c = '\x0c'

/-- `str.strip()` on a list of characters: drop whitespace from both ends. -/
def pyStripList (l : List Char) : List Char :=
  ((l.dropWhile isPySpace).reverse.dropWhile isPySpace).reverse

/-- Python `s.strip()`. -/
def pyStrip (s : String) : String :=
  String.mk (pyStripList s.data)

/-- Python `'\n'.join(ls)`. -/
def joinNl : List String → String
  | [] => ""
  | [s] => s
  | s :: rest => s ++ "\x0a" ++ joinNl rest

/-- Lines printed by `sed -n '{a},{b}p'` on `file` (1-based inclusive) for
valid addresses, i.e. `1 ≤ a` and `0 ≤ b`: GNU sed prints only line `a` when
`0 ≤ b < a`.  For an invalid address (first address below 1, or a negative
second address) sed instead exits with status 1; `sedRun` models the whole
subprocess call including that failure. -/
def sedLines (a b : Int) (file : List String) : List String :=
  (file.drop (a - 1).toNat).take (max a b - a + 1).toNat

/-- Errors surfaced by the Python code: the `ValueError` raised by
`csv_line_range`'s own validation, and the `subprocess.CalledProcessError`
raised when an invoked shell tool exits with a nonzero status. -/
inductive PyError where
  | valueError (msg : String) : PyError
  | calledProcessError : PyError
  deriving DecidableEq

/-- The full `subprocess.check_output(['sed', '-n', '{a},{b}p', path])`
call: GNU sed rejects a first line address below 1 (`invalid usage of line
address 0` / parse error) and a negative second address (parse error),
exiting with status 1, which `check_output` surfaces as
`CalledProcessError`; on valid addresses it prints `sedLines a b`. -/
def sedRun (a b : Int) (file : List String) : Except PyError (List String) :=
  if 1 ≤ a ∧ 0 ≤ b then Except.ok (sedLines a b file)
  else Except.error PyError.calledProcessError

/-- Lines printed by `tail -n +{k}` : everything from line `k` on. -/
def tailPlus (k : Int) (file : List String) : List String :=
  file.drop (k - 1).toNat

/-- Lines printed by `tail -n {n}` : the last `n` lines. -/
def tailLast (n : Int) (file : List String) : List String :=
  file.drop (file.length - n.toNat)

/-- `csv_header`: `sed -n '{1+skip}p'`, output stripped. -/
def csv_header (file : List String) (skip_n_first_rows : Int) : String :=
  pyStrip (joinNl (sedLines (1 + skip_n_first_rows) (1 + skip_n_first_rows) file))

/-- `csv_head(path, total_lines, header, skip_n_first_rows, n_rows)`:
clamp `n_rows` to the lines available after the skip offset, return `''` when
nothing is left, otherwise `sed -n '{skip+1},{skip+n}p'` stripped. -/
def csv_head (file : List String) (header : Bool)
    (skip_n_first_rows n_rows : Int) : String :=
  let skip_lines := skip_n_first_rows + (if header then 1 else 0)
  let n_rows := min n_rows ((file.length : Int) - skip_lines)
  if n_rows ≤ 0 then ""
  else
    let start_line := skip_lines + 1
    let end_line := start_line + n_rows - 1
    pyStrip (joinNl (sedLines start_line end_line file))

/-- `csv_tail`: clamp `n_rows` to the available lines, return `''` when none,
otherwise the POSIX two-stage pipeline `tail -n +{skip+1} | tail -n {n}`,
stripped. -/
def csv_tail (file : List String) (header : Bool)
    (skip_n_first_rows n_rows : Int) : String :=
  let skip_lines := skip_n_first_rows + (if header then 1 else 0)
  let n_available_lines := (file.length : Int) - skip_lines
  let n_rows := min n_rows n_available_lines
  if n_rows ≤ 0 then ""
  else pyStrip (joinNl (tailLast n_rows (tailPlus (skip_lines + 1) file)))

/-- `csv_line_range`: validate the 1-based starting data line `n` (raising
`ValueError`, modelled as `PyError.valueError`), clamp `rows_after_n`, then
run `sed -n '{skip+n},{skip+n+rows_after_n}p'` and strip its output; a
negative computed end address makes sed itself fail, which surfaces as
`PyError.calledProcessError`. -/
def csv_line_range (file : List String) (n rows_after_n : Int)
    (header : Bool) (skip_n_first_rows : Int) : Except PyError String :=
  let skip_lines := (if header then 1 else 0) + skip_n_first_rows
  let available_lines := (file.length : Int) - skip_lines
  if n < 1 ∨ n > available_lines then
    Except.error (PyError.valueError "Requested starting line exceeds the available number of data lines in the file.")
  else
    let rows_after_n := min rows_after_n (available_lines - n)
    let start_file_line := skip_lines + n
    let end_file_line := start_file_line + rows_after_n
    match sedRun start_file_line end_file_line file with
    | Except.error e => Except.error e
    | Except.ok lines => Except.ok (pyStrip (joinNl lines))

/-- Abstract result of `parse_csv_content`: either an empty `pd.DataFrame()`,
or the `pd.read_csv` call it performs (`header=None` vs `header=0`),
recording the text and separator handed over. -/
inductive DataFrame where
  | empty : DataFrame
  | readNoHeader (data : String) (sep : String) : DataFrame
  | readWithHeader (content : String) (sep : String) : DataFrame
  deriving DecidableEq

/-- `parse_csv_content(header_str, data_str, header, sep)`: strip both blobs,
then dispatch on emptiness exactly as the source does. -/
def parse_csv_content (header_str data_str : String) (header : Bool)
    (sep : String) : DataFrame :=
  let header_str := pyStrip header_str
  let data_str := pyStrip data_str
  if header then
    if header_str = "" then
      if data_str = "" then DataFrame.empty
      else DataFrame.readNoHeader data_str sep
    else
      if data_str = "" then DataFrame.readWithHeader header_str sep
      else DataFrame.readWithHeader (header_str ++ "\x0a" ++ data_str) sep
  else
    if data_str = "" then DataFrame.empty
    else DataFrame.readNoHeader data_str sep

/-- `read_csv_head`: head block plus optional header line, parsed. -/
def read_csv_head (file : List String) (header : Bool)
    (skip_n_first_rows n_rows : Int) (sep : String) : DataFrame :=
  let data_str := csv_head file header skip_n_first_rows n_rows
  let header_str := if header then csv_header file skip_n_first_rows else ""
  parse_csv_content header_str data_str header sep

/-- `read_csv_tail`: tail block plus optional header line, parsed. -/
def read_csv_tail (file : List String) (header : Bool)
    (skip_n_first_rows n_rows : Int) (sep : String) : DataFrame :=
  let data_str := csv_tail file header skip_n_first_rows n_rows
  let header_str := if header then csv_header file skip_n_first_rows else ""
  parse_csv_content header_str data_str header sep

/-- `read_csv_headtail`: empty-data early return, clamp both counts, subtract
the overlap from the tail count, fetch both blocks, join the non-empty
stripped blocks with a newline, and parse. -/
def read_csv_headtail (file : List String) (header : Bool)
    (skip_n_first_rows n_rows_head n_rows_tail : Int) (sep : String) : DataFrame :=
  let total_lines : Int := file.length
  let skip_lines := skip_n_first_rows + (if header then 1 else 0)
  let available_lines := total_lines - skip_lines
  if available_lines ≤ 0 then
    let header_str := if header then csv_header file skip_n_first_rows else ""
    parse_csv_content header_str "" header sep
  else
    let n_rows_head := min n_rows_head available_lines
    let n_rows_tail := min n_rows_tail available_lines
    let overlap := n_rows_head + n_rows_tail - available_lines
    let n_rows_tail := if overlap > 0 then n_rows_tail - overlap else n_rows_tail
    let header_str := if header then csv_header file skip_n_first_rows else ""
    let head_str := csv_head file header skip_n_first_rows n_rows_head
    let tail_str := if n_rows_tail > 0 then csv_tail file header skip_n_first_rows n_rows_tail else ""
    let data_str := joinNl (List.filter (fun s => s != "") [pyStrip head_str, pyStrip tail_str])
    parse_csv_content header_str data_str header sep

/-- One-based inclusive integer range `[a, b]` as a list (empty when `b < a`). -/
def intRange (a b : Int) : List Int :=
  (List.range (b - a + 1).toNat).map (fun (i : Nat) => a + (i : Int))

/-- The physical lines of `file` whose one-based index lies in `[a, b]`,
looked up by index. -/
def lineSlice (a b : Int) (file : List String) : List String :=
  (intRange a b).map (fun i => file.getD (i - 1).toNat "")

/-- The physical window `csv_head` extracts: `[skip+1, skip+n]` for the
clamped count `n = min n_rows (total - skip)`, empty when `n ≤ 0`. -/
def head_window (total_lines : Int) (header : Bool)
    (skip_n_first_rows n_rows : Int) : List Int :=
  let skip_lines := skip_n_first_rows + (if header then 1 else 0)
  let n_rows := min n_rows (total_lines - skip_lines)
  if n_rows ≤ 0 then [] else intRange (skip_lines + 1) (skip_lines + n_rows)

/-- The physical window `csv_tail` extracts: the last `n` lines
`[total-n+1, total]` for the clamped count `n`, empty when `n ≤ 0`. -/
def tail_window (total_lines : Int) (header : Bool)
    (skip_n_first_rows n_rows : Int) : List Int :=
  let skip_lines := skip_n_first_rows + (if header then 1 else 0)
  let n_rows := min n_rows (total_lines - skip_lines)
  if n_rows ≤ 0 then [] else intRange (total_lines - n_rows + 1) total_lines

/-- The clamped and overlap-corrected `(n_rows_head, n_rows_tail)` pair
computed by `read_csv_headtail` on its `available_lines > 0` path. -/
def headtail_counts (total_lines : Int) (header : Bool)
    (skip_n_first_rows n_rows_head n_rows_tail : Int) : Int × Int :=
  let skip_lines := skip_n_first_rows + (if header then 1 else 0)
  let available_lines := total_lines - skip_lines
  let n_rows_head := min n_rows_head available_lines
  let n_rows_tail := min n_rows_tail available_lines
  let overlap := n_rows_head + n_rows_tail - available_lines
  (n_rows_head, if overlap > 0 then n_rows_tail - overlap else n_rows_tail)

/-- The pair of physical windows `read_csv_headtail` fetches data rows from:
the head window for the corrected head count, and — only when the corrected
tail count is positive — the tail window for it. -/
def headtail_windows (total_lines : Int) (header : Bool)
    (skip_n_first_rows n_rows_head n_rows_tail : Int) : List Int × List Int :=
  let skip_lines := skip_n_first_rows + (if header then 1 else 0)
  if total_lines - skip_lines ≤ 0 then ([], [])
  else
    let c := headtail_counts total_lines header skip_n_first_rows n_rows_head n_rows_tail
    (head_window total_lines header skip_n_first_rows c.1,
     if c.2 > 0 then tail_window total_lines header skip_n_first_rows c.2 else [])

/-- `read_csv_line_range`: propagate the validation error, otherwise parse the
extracted block with the optional header line. -/
def read_csv_line_range (file : List String) (n rows_after_n : Int)
    (header : Bool) (skip_n_first_rows : Int) (sep : String) :
    Except PyError DataFrame :=
  match csv_line_range file n rows_after_n header skip_n_first_rows with
  | Except.error e => Except.error e
  | Except.ok data_str =>
      let header_str := if header then csv_header file skip_n_first_rows else ""
      Except.ok (parse_csv_content header_str data_str header sep)

/-- An empty result table: either the fully empty frame or a header-only
frame (a `pd.read_csv` call whose input is just the header line). -/
def emptyOrHeaderOnly (d : DataFrame) (sep : String) : Prop :=
  d = DataFrame.empty ∨ ∃ h, d = DataFrame.readWithHeader h sep

/-! ## Helper lemmas -/

lemma dropWhile_dropWhile {α : Type} (p : α → Bool) (l : List α) :
    (l.dropWhile p).dropWhile p = l.dropWhile p := by
  induction l with
  | nil => rfl
  | cons a t ih =>
    by_cases h : p a
    · simp [List.dropWhile_cons, h, ih]
    · simp [List.dropWhile_cons, h]

lemma dropWhile_of_backStrip {α : Type} (p : α → Bool) (l : List α)
    (h : l.dropWhile p = l) :
    ((l.reverse.dropWhile p).reverse).dropWhile p
      = (l.reverse.dropWhile p).reverse := by
  cases l with
  | nil => simp
  | cons a t =>
    have hp : p a = false := by
      by_contra hup
      rw [List.dropWhile_cons, if_pos (by simpa using hup)] at h
      have hlen : (t.dropWhile p).length ≤ t.length :=
        (List.dropWhile_suffix p).sublist.length_le
      rw [h] at hlen
      simp at hlen
    rw [List.reverse_cons, List.dropWhile_append]
    by_cases he : (t.reverse.dropWhile p).isEmpty
    · simp only [he, if_pos]
      simp [List.dropWhile_cons, hp]
    · simp only [he, if_neg, Bool.false_eq_true, not_false_iff]
      rw [List.reverse_append]
      simp [List.dropWhile_cons, hp]

lemma pyStripList_idem (l : List Char) :
    pyStripList (pyStripList l) = pyStripList l := by
  unfold pyStripList
  have h1 := dropWhile_of_backStrip isPySpace (l.dropWhile isPySpace)
    (dropWhile_dropWhile isPySpace l)
  rw [h1, List.reverse_reverse, dropWhile_dropWhile]

lemma pyStrip_idem (s : String) : pyStrip (pyStrip s) = pyStrip s := by
  unfold pyStrip
  show String.mk (pyStripList (pyStripList s.data)) = _
  rw [pyStripList_idem]

lemma pyStripList_eq_nil (l : List Char) (h : ∀ c ∈ l, isPySpace c = true) :
    pyStripList l = [] := by
  unfold pyStripList
  rw [List.dropWhile_eq_nil_iff.mpr h]
  simp

lemma data_joinNl_subset (ls : List String) (c : Char)
    (h : c ∈ (joinNl ls).data) : c = '\x0a' ∨ ∃ s ∈ ls, c ∈ s.data := by
  induction ls with
  | nil => simp [joinNl] at h
  | cons s rest ih =>
    cases rest with
    | nil =>
      right
      exact ⟨s, by simp, by simpa [joinNl] using h⟩
    | cons s2 rest2 =>
      have happ : (joinNl (s :: s2 :: rest2)).data
          = s.data ++ '\x0a' :: (joinNl (s2 :: rest2)).data := by
        have h1 : joinNl (s :: s2 :: rest2) = s ++ "\x0a" ++ joinNl (s2 :: rest2) := rfl
        have h2 : ("\x0a" : String).data = ['\x0a'] := rfl
        simp [h1, String.data_append, h2]
      rw [happ] at h
      rcases List.mem_append.mp h with hc | hc
      · exact Or.inr ⟨s, by simp, hc⟩
      · rcases List.mem_cons.mp hc with hc | hc
        · exact Or.inl hc
        · rcases ih hc with hc | ⟨s3, hs3, hc⟩
          · exact Or.inl hc
          · exact Or.inr ⟨s3, by simp [hs3], hc⟩

lemma pyStrip_joinNl_eq_empty (ls : List String)
    (h : ∀ s ∈ ls, ∀ c ∈ s.data, isPySpace c = true) :
    pyStrip (joinNl ls) = "" := by
  have hnil : pyStripList (joinNl ls).data = [] := by
    apply pyStripList_eq_nil
    intro c hc
    rcases data_joinNl_subset ls c hc with hc | ⟨s, hs, hc⟩
    · subst hc; rfl
    · exact h s hs c hc
  unfold pyStrip
  rw [hnil]

lemma drop_take_eq_map_range {α : Type} (l : List α) (dflt : α)
    (d k : Nat) (h : d + k ≤ l.length) :
    (l.drop d).take k = (List.range k).map (fun i => l.getD (d + i) dflt) := by
  induction k generalizing d with
  | zero => simp
  | succ k ih =>
    have hd : d < l.length := by omega
    rw [List.range_succ_eq_map, List.map_cons, List.map_map]
    rw [List.drop_eq_getElem_cons hd, List.take_succ_cons]
    congr 1
    · rw [List.getD_eq_getElem _ _ (by omega)]
      simp
    · rw [ih (d + 1) (by omega)]
      apply List.map_congr_left
      intro i _
      simp only [Function.comp]
      congr 1
      omega

lemma sedLines_eq_lineSlice (a b : Int) (file : List String)
    (ha : 1 ≤ a) (hab : a ≤ b) (hb : b ≤ (file.length : Int)) :
    sedLines a b file = lineSlice a b file := by
  unfold sedLines lineSlice intRange
  rw [max_eq_right hab, List.map_map]
  rw [drop_take_eq_map_range file "" (a - 1).toNat (b - a + 1).toNat (by omega)]
  apply List.map_congr_left
  intro i hi
  simp only [Function.comp]
  congr 1
  omega

lemma tail_two_stage (file : List String) (skip n : Int)
    (hskip : 0 ≤ skip) (hn : 0 < n) (hna : n ≤ (file.length : Int) - skip) :
    tailLast n (tailPlus (skip + 1) file)
      = lineSlice ((file.length : Int) - n + 1) (file.length : Int) file := by
  have h1 : tailLast n (tailPlus (skip + 1) file)
      = file.drop (file.length - n.toNat) := by
    unfold tailPlus tailLast
    rw [List.drop_drop]
    congr 1
    rw [List.length_drop]
    omega
  have hlen : (file.drop (file.length - n.toNat)).length = n.toNat := by
    rw [List.length_drop]
    omega
  have h2 : file.drop (file.length - n.toNat)
      = (file.drop (file.length - n.toNat)).take n.toNat := by
    conv_lhs => rw [← List.take_length (file.drop (file.length - n.toNat))]
    rw [hlen]
  rw [h1, h2,
    drop_take_eq_map_range file "" (file.length - n.toNat) n.toNat (by omega)]
  unfold lineSlice intRange
  rw [List.map_map]
  have hk : ((file.length : Int) - ((file.length : Int) - n + 1) + 1).toNat = n.toNat := by
    omega
  rw [hk]
  apply List.map_congr_left
  intro i hi
  simp only [Function.comp]
  congr 1
  omega

/-- `csv_head` written with the indexed slice `[skip+1, skip+n]` in place of
the `sed` invocation. -/
lemma csv_head_eq_slice (file : List String) (header : Bool)
    (skip_n_first_rows n_rows : Int) (hs : 0 ≤ skip_n_first_rows) :
    csv_head file header skip_n_first_rows n_rows
      = (if min n_rows ((file.length : Int) - (skip_n_first_rows + (if header then 1 else 0))) ≤ 0
         then ""
         else pyStrip (joinNl (lineSlice
           ((skip_n_first_rows + (if header then 1 else 0)) + 1)
           ((skip_n_first_rows + (if header then 1 else 0))
             + min n_rows ((file.length : Int) - (skip_n_first_rows + (if header then 1 else 0))))
           file))) := by
  unfold csv_head
  set skip := skip_n_first_rows + (if header then 1 else 0) with hskip
  have hskip0 : 0 ≤ skip := by
    rw [hskip]
    split <;> omega
  set n := min n_rows ((file.length : Int) - skip) with hn
  by_cases h : n ≤ 0
  · simp only [h, if_pos]
  · simp only [h, if_neg, not_false_iff]
    have hn0 : 0 < n := by omega
    have hne : n ≤ (file.length : Int) - skip := min_le_right _ _
    have harg : skip + 1 + n - 1 = skip + n := by ring
    rw [harg, sedLines_eq_lineSlice (skip + 1) (skip + n) file
      (by omega) (by omega) (by omega)]

/-- `csv_tail` written with the indexed slice `[total-n+1, total]` in place of
the two-stage `tail` pipeline. -/
lemma csv_tail_eq_slice (file : List String) (header : Bool)
    (skip_n_first_rows n_rows : Int) (hs : 0 ≤ skip_n_first_rows) :
    csv_tail file header skip_n_first_rows n_rows
      = (if min n_rows ((file.length : Int) - (skip_n_first_rows + (if header then 1 else 0))) ≤ 0
         then ""
         else pyStrip (joinNl (lineSlice
           ((file.length : Int)
             - min n_rows ((file.length : Int) - (skip_n_first_rows + (if header then 1 else 0))) + 1)
           (file.length : Int) file))) := by
  unfold csv_tail
  set skip := skip_n_first_rows + (if header then 1 else 0) with hskip
  have hskip0 : 0 ≤ skip := by
    rw [hskip]
    split <;> omega
  set n := min n_rows ((file.length : Int) - skip) with hn
  by_cases h : n ≤ 0
  · simp only [h, if_pos]
  · simp only [h, if_neg, not_false_iff]
    have hn0 : 0 < n := by omega
    have hne : n ≤ (file.length : Int) - skip := min_le_right _ _
    rw [tail_two_stage file skip n hskip0 hn0 hne]

/-- `csv_line_range` in closed form: the validation error, then the sed
address check, then the stripped window text. -/
lemma csv_line_range_eq (file : List String) (n rows_after_n : Int)
    (header : Bool) (skip_n_first_rows : Int) :
    csv_line_range file n rows_after_n header skip_n_first_rows
      = (if n < 1 ∨ n > (file.length : Int) - ((if header then 1 else 0) + skip_n_first_rows) then
          Except.error (PyError.valueError "Requested starting line exceeds the available number of data lines in the file.")
        else if 1 ≤ (if header then 1 else 0) + skip_n_first_rows + n
            ∧ 0 ≤ (if header then 1 else 0) + skip_n_first_rows + n
                + min rows_after_n ((file.length : Int) - ((if header then 1 else 0) + skip_n_first_rows) - n) then
          Except.ok (pyStrip (joinNl (sedLines
            ((if header then 1 else 0) + skip_n_first_rows + n)
            ((if header then 1 else 0) + skip_n_first_rows + n
              + min rows_after_n ((file.length : Int) - ((if header then 1 else 0) + skip_n_first_rows) - n)) file)))
        else Except.error PyError.calledProcessError) := by
  simp only [csv_line_range, sedRun]
  by_cases h1 : n < 1 ∨ n > (file.length : Int) - ((if header then 1 else 0) + skip_n_first_rows)
  · rw [if_pos h1, if_pos h1]
  · rw [if_neg h1, if_neg h1]
    by_cases h2 : 1 ≤ (if header then 1 else 0) + skip_n_first_rows + n
        ∧ 0 ≤ (if header then 1 else 0) + skip_n_first_rows + n
            + min rows_after_n ((file.length : Int) - ((if header then 1 else 0) + skip_n_first_rows) - n)
    · rw [if_pos h2, if_pos h2]
    · rw [if_neg h2, if_neg h2]

lemma mem_intRange (a b x : Int) : x ∈ intRange a b ↔ a ≤ x ∧ x ≤ b := by
  unfold intRange
  simp only [List.mem_map, List.mem_range]
  constructor
  · rintro ⟨i, hi, rfl⟩
    omega
  · rintro ⟨h1, h2⟩
    exact ⟨(x - a).toNat, by omega, by omega⟩

lemma length_intRange (a b : Int) : (intRange a b).length = (b - a + 1).toNat := by
  unfold intRange
  simp

lemma pyStrip_empty : pyStrip "" = "" := rfl

lemma parse_empty_data (header_str : String) (header : Bool) (sep : String) :
    emptyOrHeaderOnly (parse_csv_content header_str "" header sep) sep := by
  unfold parse_csv_content emptyOrHeaderOnly
  rw [pyStrip_empty]
  by_cases hh : header
  · by_cases he : pyStrip header_str = "" <;>
      simp [hh, he]
  · simp [hh]

/-- Parsing an empty data blob: header-only table when a header line with
text is present, fully empty table otherwise. -/
lemma parse_empty_data_eq (header_str : String) (header : Bool) (sep : String) :
    parse_csv_content header_str "" header sep
      = (if header = true ∧ pyStrip header_str ≠ "" then
          DataFrame.readWithHeader (pyStrip header_str) sep
        else DataFrame.empty) := by
  unfold parse_csv_content
  rw [pyStrip_empty]
  by_cases hh : header
  · by_cases he : pyStrip header_str = "" <;> simp [hh, he]
  · simp [hh]

/-- The parse result of any of the read operations on an empty data blob,
in the claim's shape: header-only when header text exists, fully empty
otherwise. -/
lemma read_empty_result (header : Bool) (file : List String) (s : Int)
    (sep : String) :
    parse_csv_content (if header then csv_header file s else "") "" header sep
      = (if header = true ∧ pyStrip (csv_header file s) ≠ "" then
          DataFrame.readWithHeader (pyStrip (csv_header file s)) sep
        else DataFrame.empty) := by
  by_cases hh : header
  · rw [if_pos hh, parse_empty_data_eq]
  · rw [if_neg hh, parse_empty_data_eq]
    simp [hh]

/-! ## Claim theorems -/

/-- C3: Head Resolver window.  With `skip = skip_n_first_rows + (1 if header
else 0)` and `n = min(requested_n_rows, FileLineCount - skip)`: if `n ≤ 0`
the result is the empty raw block with no extraction, otherwise the extracted
physical lines are exactly the inclusive range `[skip+1, skip+n]`. -/
theorem head_resolver_window (file : List String) (header : Bool)
    (skip_n_first_rows n_rows : Int) (hs : 0 ≤ skip_n_first_rows) :
    (min n_rows ((file.length : Int) - (skip_n_first_rows + (if header then 1 else 0))) ≤ 0 →
      csv_head file header skip_n_first_rows n_rows = "") ∧
    (0 < min n_rows ((file.length : Int) - (skip_n_first_rows + (if header then 1 else 0))) →
      csv_head file header skip_n_first_rows n_rows
        = pyStrip (joinNl (lineSlice
            (skip_n_first_rows + (if header then 1 else 0) + 1)
            (skip_n_first_rows + (if header then 1 else 0)
              + min n_rows ((file.length : Int) - (skip_n_first_rows + (if header then 1 else 0))))
            file))) := by
  rw [csv_head_eq_slice file header skip_n_first_rows n_rows hs]
  constructor
  · intro h
    rw [if_pos h]
  · intro h
    rw [if_neg (by omega)]

theorem head_resolver_window_witness :
    csv_head ["h", "a", "b"] true 0 5
      = pyStrip (joinNl (lineSlice 2 3 ["h", "a", "b"])) := by
  have h := (head_resolver_window ["h", "a", "b"] true 0 5 (by decide)).2 (by decide)
  rw [h]
  decide

/-- C2: Tail Resolver window.  With `n = min(requested_n_rows,
FileLineCount - SkipOffset)`: if `n ≤ 0` the result is the empty raw block,
otherwise the extracted physical lines are exactly
`[FileLineCount-n+1, FileLineCount]`; moreover the two-stage computation
(drop the first `SkipOffset` lines, then keep the last `n` lines of the
remainder) yields exactly that window. -/
theorem tail_resolver_window (file : List String) (header : Bool)
    (skip_n_first_rows n_rows : Int) (hs : 0 ≤ skip_n_first_rows) :
    (min n_rows ((file.length : Int) - (skip_n_first_rows + (if header then 1 else 0))) ≤ 0 →
      csv_tail file header skip_n_first_rows n_rows = "") ∧
    (0 < min n_rows ((file.length : Int) - (skip_n_first_rows + (if header then 1 else 0))) →
      tailLast (min n_rows ((file.length : Int) - (skip_n_first_rows + (if header then 1 else 0))))
          (tailPlus (skip_n_first_rows + (if header then 1 else 0) + 1) file)
        = lineSlice
            ((file.length : Int)
              - min n_rows ((file.length : Int) - (skip_n_first_rows + (if header then 1 else 0))) + 1)
            (file.length : Int) file ∧
      csv_tail file header skip_n_first_rows n_rows
        = pyStrip (joinNl (lineSlice
            ((file.length : Int)
              - min n_rows ((file.length : Int) - (skip_n_first_rows + (if header then 1 else 0))) + 1)
            (file.length : Int) file))) := by
  have hskip0 : (0 : Int) ≤ skip_n_first_rows + (if header then 1 else 0) := by
    split <;> omega
  constructor
  · intro h
    rw [csv_tail_eq_slice file header skip_n_first_rows n_rows hs, if_pos h]
  · intro h
    refine ⟨tail_two_stage file _ _ hskip0 h (min_le_right _ _), ?_⟩
    rw [csv_tail_eq_slice file header skip_n_first_rows n_rows hs, if_neg (by omega)]

theorem tail_resolver_window_witness :
    csv_tail ["h", "a", "b", "c"] true 0 2
      = pyStrip (joinNl (lineSlice 3 4 ["h", "a", "b", "c"])) := by
  have h := ((tail_resolver_window ["h", "a", "b", "c"] true 0 2 (by decide)).2 (by decide)).2
  rw [h]
  decide

/-- C4: the Line-Range Resolver fails with `InvalidStartLine` (the
`ValueError`) exactly when `n < 1` or `n > FileLineCount - SkipOffset`,
while the Head and Tail resolvers never fail: they behave identically on
any requested count and on its clamped value `min(requested, available)`. -/
theorem line_range_raises_iff (file : List String) (n rows_after_n : Int)
    (header : Bool) (skip_n_first_rows n_rows : Int) :
    ((∃ msg, csv_line_range file n rows_after_n header skip_n_first_rows
        = Except.error (PyError.valueError msg))
      ↔ (n < 1 ∨ n > (file.length : Int) - ((if header then 1 else 0) + skip_n_first_rows))) ∧
    csv_head file header skip_n_first_rows n_rows
      = csv_head file header skip_n_first_rows
          (min n_rows ((file.length : Int) - (skip_n_first_rows + (if header then 1 else 0)))) ∧
    csv_tail file header skip_n_first_rows n_rows
      = csv_tail file header skip_n_first_rows
          (min n_rows ((file.length : Int) - (skip_n_first_rows + (if header then 1 else 0)))) := by
  refine ⟨?_, ?_, ?_⟩
  · rw [csv_line_range_eq]
    by_cases h : n < 1 ∨ n > (file.length : Int) - ((if header then 1 else 0) + skip_n_first_rows)
    · rw [if_pos h]
      exact ⟨fun _ => h, fun _ => ⟨_, rfl⟩⟩
    · rw [if_neg h]
      constructor
      · rintro ⟨msg, hmsg⟩
        by_cases h2 : 1 ≤ (if header then 1 else 0) + skip_n_first_rows + n
            ∧ 0 ≤ (if header then 1 else 0) + skip_n_first_rows + n
                + min rows_after_n ((file.length : Int) - ((if header then 1 else 0) + skip_n_first_rows) - n)
        · rw [if_pos h2] at hmsg
          cases hmsg
        · rw [if_neg h2] at hmsg
          injection hmsg with h3
          exact PyError.noConfusion h3
      · intro hc
        exact absurd hc h
  · simp only [csv_head, min_assoc, min_self]
  · simp only [csv_tail, min_assoc, min_self]

/-- C5 (amended: a negative `rows_after_n` behaves as zero extra rows only
as long as the computed sed end address `SkipOffset + n + rows_after_n`
stays nonnegative — then exactly the single physical line `SkipOffset + n`
is returned (stripped); for a more negative `rows_after_n` the code builds
a sed command with a negative second address, which GNU sed rejects, so
the call fails with `CalledProcessError` — see the counterexample). -/
theorem line_range_negative_rows_after (file : List String) (n rows_after_n : Int)
    (header : Bool) (skip_n_first_rows : Int)
    (hs : 0 ≤ skip_n_first_rows) (h1 : 1 ≤ n)
    (h2 : n ≤ (file.length : Int) - ((if header then 1 else 0) + skip_n_first_rows))
    (hneg : rows_after_n < 0) :
    (0 ≤ (if header then 1 else 0) + skip_n_first_rows + n + rows_after_n →
      csv_line_range file n rows_after_n header skip_n_first_rows
        = Except.ok (pyStrip (file.getD
            ((((if header then 1 else 0) + skip_n_first_rows + n) - 1).toNat) ""))) ∧
    ((if header then 1 else 0) + skip_n_first_rows + n + rows_after_n < 0 →
      csv_line_range file n rows_after_n header skip_n_first_rows
        = Except.error PyError.calledProcessError) := by
  rw [csv_line_range_eq]
  generalize hk : (if header then (1 : Int) else 0) = hdr at h2 ⊢
  have hdr0 : 0 ≤ hdr := by
    rw [← hk]
    split <;> omega
  rw [if_neg (by omega)]
  constructor
  · intro hok
    rw [if_pos ⟨by omega, by omega⟩]
    have hsed : sedLines (hdr + skip_n_first_rows + n)
        (hdr + skip_n_first_rows + n
          + min rows_after_n ((file.length : Int) - (hdr + skip_n_first_rows) - n)) file
        = [file.getD ((hdr + skip_n_first_rows + n - 1).toNat) ""] := by
      unfold sedLines
      rw [max_eq_left (by omega)]
      rw [show (hdr + skip_n_first_rows + n
          - (hdr + skip_n_first_rows + n) + 1 : Int).toNat = 1 from by omega]
      rw [drop_take_eq_map_range file "" ((hdr + skip_n_first_rows + n - 1).toNat) 1 (by omega)]
      simp [List.range_succ]
    rw [hsed]
    rfl
  · intro hbad
    rw [if_neg (by omega)]

/-- C5 counterexample: with a header line plus two data lines, start line
`n = 2` and `rows_after_n = -5`, the source builds `sed -n '3,-2p'`; GNU
sed rejects the negative second address and exits with status 1, so the
call raises `CalledProcessError` instead of returning data line 2. -/
theorem line_range_negative_rows_after_cex :
    csv_line_range ["h", "a", "b"] 2 (-5) true 0
      = Except.error PyError.calledProcessError := by
  rfl

theorem line_range_negative_rows_after_witness :
    (0 : Int) ≤ 0 ∧ (1 : Int) ≤ 2 ∧ (2 : Int) ≤ (3 : Int) - (1 + 0) ∧ (-1 : Int) < 0 ∧
    csv_line_range ["h", "a", "b"] 2 (-1) true 0
      = Except.ok (pyStrip ((["h", "a", "b"] : List String).getD
          ((((if true then (1 : Int) else 0) + 0 + 2) - 1).toNat) "")) :=
  ⟨by decide, by decide, by decide, by decide,
    (line_range_negative_rows_after ["h", "a", "b"] 2 (-1) true 0
      (by decide) (by decide) (by decide) (by decide)).1 (by decide)⟩

/-- On the `available_lines > 0` path, the two windows of
`read_csv_headtail` in closed form: the head window is
`[skip+1, skip+h]` for `h = min n_rows_head available`, and the tail window
is `[total-t+1, total]` for the corrected tail count
`t = min (min n_rows_tail available) (available - h)`. -/
lemma headtail_windows_char (total_lines : Int) (header : Bool)
    (s hr tr : Int)
    (ha : 0 < total_lines - (s + (if header then 1 else 0))) :
    headtail_windows total_lines header s hr tr
      = ((if min hr (total_lines - (s + (if header then 1 else 0))) ≤ 0 then []
          else intRange (s + (if header then 1 else 0) + 1)
            (s + (if header then 1 else 0)
              + min hr (total_lines - (s + (if header then 1 else 0))))),
         (if min (min tr (total_lines - (s + (if header then 1 else 0))))
              ((total_lines - (s + (if header then 1 else 0)))
                - min hr (total_lines - (s + (if header then 1 else 0)))) ≤ 0 then []
          else intRange
            (total_lines
              - min (min tr (total_lines - (s + (if header then 1 else 0))))
                  ((total_lines - (s + (if header then 1 else 0)))
                    - min hr (total_lines - (s + (if header then 1 else 0)))) + 1)
            total_lines)) := by
  simp only [headtail_windows, headtail_counts, head_window, tail_window]
  rw [if_neg (by omega)]
  set a := total_lines - (s + (if header then 1 else 0)) with hA
  set h0 := min hr a with hH
  set t0 := min tr a with hT
  have hha : h0 ≤ a := min_le_right _ _
  have hta : t0 ≤ a := min_le_right _ _
  have hc2 : (if h0 + t0 - a > 0 then t0 - (h0 + t0 - a) else t0) = min t0 (a - h0) := by
    split <;> omega
  rw [hc2]
  refine Prod.ext ?_ ?_
  · show (if min h0 a ≤ 0 then [] else intRange (s + (if header then 1 else 0) + 1)
        (s + (if header then 1 else 0) + min h0 a)) = _
    rw [min_eq_left hha]
  · show (if min t0 (a - h0) > 0 then
        (if min (min t0 (a - h0)) a ≤ 0 then []
         else intRange (total_lines - min (min t0 (a - h0)) a + 1) total_lines)
        else []) = _
    have hma : min (min t0 (a - h0)) a = min t0 (a - h0) := by omega
    rw [hma]
    by_cases hm : min t0 (a - h0) ≤ 0
    · rw [if_neg (by omega), if_pos hm]
    · rw [if_pos (by omega), if_neg hm]

/-- C1 (amended: the requested head and tail counts are taken nonnegative;
for negative requested counts the count formula fails, see the
counterexample): with `available > 0`, the resolved head and tail windows of
`read_csv_headtail` are disjoint, and together they cover exactly
`min(head_n, available) + min(tail_n, available - min(head_n, available))`
physical lines, where `head_n`, `tail_n` are the requested counts. -/
theorem headtail_dedup_disjoint_count (total_lines : Int) (header : Bool)
    (skip_n_first_rows n_rows_head n_rows_tail : Int)
    (hh : 0 ≤ n_rows_head) (ht : 0 ≤ n_rows_tail)
    (ha : 0 < total_lines - (skip_n_first_rows + (if header then 1 else 0))) :
    (∀ x, x ∈ (headtail_windows total_lines header skip_n_first_rows n_rows_head n_rows_tail).1 →
      x ∉ (headtail_windows total_lines header skip_n_first_rows n_rows_head n_rows_tail).2) ∧
    (((headtail_windows total_lines header skip_n_first_rows n_rows_head n_rows_tail).1.length : Int)
      + ((headtail_windows total_lines header skip_n_first_rows n_rows_head n_rows_tail).2.length : Int)
      = min n_rows_head (total_lines - (skip_n_first_rows + (if header then 1 else 0)))
        + min n_rows_tail ((total_lines - (skip_n_first_rows + (if header then 1 else 0)))
            - min n_rows_head (total_lines - (skip_n_first_rows + (if header then 1 else 0))))) := by
  rw [headtail_windows_char total_lines header skip_n_first_rows n_rows_head n_rows_tail ha]
  set a := total_lines - (skip_n_first_rows + (if header then 1 else 0)) with hA
  set h0 := min n_rows_head a with hH
  set t0 := min n_rows_tail a with hT
  set m := min t0 (a - h0) with hM
  have hh0 : 0 ≤ h0 := by omega
  have hha : h0 ≤ a := by omega
  have hm0 : 0 ≤ m := by omega
  have hmah : m ≤ a - h0 := by omega
  constructor
  · intro x hx1 hx2
    by_cases hc1 : h0 ≤ 0
    · rw [if_pos hc1] at hx1
      simp at hx1
    · rw [if_neg hc1] at hx1
      by_cases hc2 : m ≤ 0
      · rw [if_pos hc2] at hx2
        simp at hx2
      · rw [if_neg hc2] at hx2
        rw [mem_intRange] at hx1 hx2
        omega
  · have hfin : h0 + m = h0 + min n_rows_tail (a - h0) := by omega
    by_cases hc1 : h0 ≤ 0 <;> by_cases hc2 : m ≤ 0 <;>
      simp only [hc1, hc2, if_pos, if_neg, not_false_iff, List.length_nil,
        length_intRange] <;>
      push_cast <;>
      omega

/-- C1 counterexample: with 5 data lines, no header, no skip, requested head
count `-1` and requested tail count `5`, the code resolves an empty head
window and a 5-line tail window (5 lines in total), while the claim's
formula `min(head_n, available) + min(tail_n, available - min(head_n,
available))` evaluates to `4`. -/
theorem headtail_count_formula_cex :
    ¬ ((((headtail_windows 5 false 0 (-1) 5).1.length : Int)
        + ((headtail_windows 5 false 0 (-1) 5).2.length : Int))
      = min (-1 : Int) 5 + min (5 : Int) ((5 : Int) - min (-1 : Int) 5)) := by
  decide

theorem headtail_dedup_disjoint_count_witness :
    (0 : Int) ≤ 3 ∧ (0 : Int) ≤ 4 ∧
    (0 : Int) < 5 - (0 + (if false then 1 else 0)) ∧
    (((headtail_windows 5 false 0 3 4).1.length : Int)
      + ((headtail_windows 5 false 0 3 4).2.length : Int)
      = min (3 : Int) (5 - (0 + (if false then 1 else 0)))
        + min (4 : Int) ((5 - (0 + (if false then 1 else 0)))
            - min (3 : Int) (5 - (0 + (if false then 1 else 0))))) :=
  ⟨by decide, by decide, by decide,
    (headtail_dedup_disjoint_count 5 false 0 3 4 (by decide) (by decide) (by decide)).2⟩

/-- C10 (amended: the requested tail count is taken nonnegative; for a
negative requested tail count the corrected count itself is negative, see
the counterexample): with `available > 0`, the corrected tail count is
nonnegative and the corrected head and tail counts sum to at most
`available`. -/
theorem headtail_counts_bounds (total_lines : Int) (header : Bool)
    (skip_n_first_rows n_rows_head n_rows_tail : Int)
    (ht : 0 ≤ n_rows_tail)
    (ha : 0 < total_lines - (skip_n_first_rows + (if header then 1 else 0))) :
    0 ≤ (headtail_counts total_lines header skip_n_first_rows n_rows_head n_rows_tail).2 ∧
    (headtail_counts total_lines header skip_n_first_rows n_rows_head n_rows_tail).1
        + (headtail_counts total_lines header skip_n_first_rows n_rows_head n_rows_tail).2
      ≤ total_lines - (skip_n_first_rows + (if header then 1 else 0)) := by
  simp only [headtail_counts]
  constructor
  · split <;> omega
  · split <;> omega

/-- C10 counterexample: with 5 data lines, no header, no skip, requested
head count `1` and requested tail count `-2`, the corrected tail count is
`-2 < 0`: the overlap correction does not prevent a negative tail count. -/
theorem headtail_tail_count_cex :
    ¬ (0 ≤ (headtail_counts 5 false 0 1 (-2)).2) := by
  decide

theorem headtail_counts_bounds_witness :
    (0 : Int) ≤ 2 ∧ (0 : Int) < 5 - (0 + (if false then 1 else 0)) ∧
    (0 ≤ (headtail_counts 5 false 0 4 2).2 ∧
      (headtail_counts 5 false 0 4 2).1 + (headtail_counts 5 false 0 4 2).2
        ≤ 5 - (0 + (if false then 1 else 0))) :=
  ⟨by decide, by decide,
    headtail_counts_bounds 5 false 0 4 2 (by decide) (by decide)⟩

lemma csv_head_of_avail_nonpos (file : List String) (header : Bool)
    (skip_n_first_rows n_rows : Int)
    (ha : (file.length : Int) - (skip_n_first_rows + (if header then 1 else 0)) ≤ 0) :
    csv_head file header skip_n_first_rows n_rows = "" := by
  simp only [csv_head]
  rw [if_pos (le_trans (min_le_right _ _) ha)]

lemma csv_tail_of_avail_nonpos (file : List String) (header : Bool)
    (skip_n_first_rows n_rows : Int)
    (ha : (file.length : Int) - (skip_n_first_rows + (if header then 1 else 0)) ≤ 0) :
    csv_tail file header skip_n_first_rows n_rows = "" := by
  simp only [csv_tail]
  rw [if_pos (le_trans (min_le_right _ _) ha)]

lemma csv_line_range_error_of_avail_nonpos (file : List String)
    (n rows_after_n : Int) (header : Bool) (skip_n_first_rows : Int)
    (ha : (file.length : Int) - (skip_n_first_rows + (if header then 1 else 0)) ≤ 0) :
    csv_line_range file n rows_after_n header skip_n_first_rows
      = Except.error (PyError.valueError "Requested starting line exceeds the available number of data lines in the file.") := by
  rw [csv_line_range_eq]
  rw [if_pos ?_]
  generalize (if header then (1 : Int) else 0) = k at ha ⊢
  omega

/-- C6 (amended: the three clamping operations `read_csv_head`,
`read_csv_tail` and `read_csv_headtail` return a successful empty or
header-only table when `available ≤ 0`, but `read_csv_line_range` always
raises `InvalidStartLine` in that situation, because no starting data line
is in range — see the counterexample). -/
theorem empty_data_boundary (file : List String) (header : Bool)
    (skip_n_first_rows : Int) (sep : String)
    (n_rows_h n_rows_t n_rows_head n_rows_tail n rows_after_n : Int)
    (ha : (file.length : Int) - (skip_n_first_rows + (if header then 1 else 0)) ≤ 0) :
    read_csv_head file header skip_n_first_rows n_rows_h sep
      = (if header = true ∧ pyStrip (csv_header file skip_n_first_rows) ≠ "" then
          DataFrame.readWithHeader (pyStrip (csv_header file skip_n_first_rows)) sep
        else DataFrame.empty) ∧
    read_csv_tail file header skip_n_first_rows n_rows_t sep
      = (if header = true ∧ pyStrip (csv_header file skip_n_first_rows) ≠ "" then
          DataFrame.readWithHeader (pyStrip (csv_header file skip_n_first_rows)) sep
        else DataFrame.empty) ∧
    read_csv_headtail file header skip_n_first_rows n_rows_head n_rows_tail sep
      = (if header = true ∧ pyStrip (csv_header file skip_n_first_rows) ≠ "" then
          DataFrame.readWithHeader (pyStrip (csv_header file skip_n_first_rows)) sep
        else DataFrame.empty) ∧
    ∃ msg, read_csv_line_range file n rows_after_n header skip_n_first_rows sep
      = Except.error (PyError.valueError msg) := by
  refine ⟨?_, ?_, ?_, ?_⟩
  · simp only [read_csv_head]
    rw [csv_head_of_avail_nonpos file header skip_n_first_rows n_rows_h ha]
    exact read_empty_result _ _ _ _
  · simp only [read_csv_tail]
    rw [csv_tail_of_avail_nonpos file header skip_n_first_rows n_rows_t ha]
    exact read_empty_result _ _ _ _
  · simp only [read_csv_headtail]
    rw [if_pos ha]
    exact read_empty_result _ _ _ _
  · refine ⟨"Requested starting line exceeds the available number of data lines in the file.", ?_⟩
    simp only [read_csv_line_range,
      csv_line_range_error_of_avail_nonpos file n rows_after_n header skip_n_first_rows ha]

/-- C6 counterexample: a file holding only its header line has
`available = 0`, and `read_csv_line_range` raises rather than returning an
empty table, contradicting the claim that all four operations succeed. -/
theorem empty_data_line_range_cex :
    read_csv_line_range ["c1,c2"] 2 0 true 0 ","
      = Except.error (PyError.valueError "Requested starting line exceeds the available number of data lines in the file.") := by
  rfl

theorem empty_data_boundary_witness :
    ((["c1,c2"] : List String).length : Int) - (0 + (if true then 1 else 0)) ≤ 0 ∧
    (read_csv_head ["c1,c2"] true 0 3 ","
       = (if true = true ∧ pyStrip (csv_header ["c1,c2"] 0) ≠ "" then
           DataFrame.readWithHeader (pyStrip (csv_header ["c1,c2"] 0)) ","
         else DataFrame.empty) ∧
     read_csv_tail ["c1,c2"] true 0 3 ","
       = (if true = true ∧ pyStrip (csv_header ["c1,c2"] 0) ≠ "" then
           DataFrame.readWithHeader (pyStrip (csv_header ["c1,c2"] 0)) ","
         else DataFrame.empty) ∧
     read_csv_headtail ["c1,c2"] true 0 1 1 ","
       = (if true = true ∧ pyStrip (csv_header ["c1,c2"] 0) ≠ "" then
           DataFrame.readWithHeader (pyStrip (csv_header ["c1,c2"] 0)) ","
         else DataFrame.empty) ∧
     ∃ msg, read_csv_line_range ["c1,c2"] 1 0 true 0 ","
       = Except.error (PyError.valueError msg)) :=
  ⟨by decide, empty_data_boundary ["c1,c2"] true 0 "," 3 3 1 1 1 0 (by decide)⟩

/-- C7: with `has_header = true` and an empty or whitespace-only header
text, `parse_csv_content` builds the same table as with
`has_header = false` on the same data text; when the data text is also
empty, both are the completely empty table. -/
theorem parse_header_absent_equiv (header_str data_str sep : String)
    (h : pyStrip header_str = "") :
    parse_csv_content header_str data_str true sep
      = parse_csv_content header_str data_str false sep ∧
    (pyStrip data_str = "" →
      parse_csv_content header_str data_str true sep = DataFrame.empty) := by
  constructor
  · simp [parse_csv_content, h]
  · intro hd
    simp [parse_csv_content, h, hd]

theorem parse_header_absent_equiv_witness :
    pyStrip "  " = "" ∧
    parse_csv_content "  " "a,b" true ","
      = parse_csv_content "  " "a,b" false "," :=
  ⟨by decide, (parse_header_absent_equiv "  " "a,b" "," (by decide)).1⟩

/-- C9: a negative requested row count is accepted by the head and tail
paths: the clamped count is negative, the empty-window branch fires before
any extraction, and the read operations return an empty or header-only
table without any error. -/
theorem negative_n_rows_accepted (file : List String) (header : Bool)
    (skip_n_first_rows n_rows : Int) (sep : String) (hneg : n_rows < 0) :
    csv_head file header skip_n_first_rows n_rows = "" ∧
    csv_tail file header skip_n_first_rows n_rows = "" ∧
    emptyOrHeaderOnly (read_csv_head file header skip_n_first_rows n_rows sep) sep ∧
    emptyOrHeaderOnly (read_csv_tail file header skip_n_first_rows n_rows sep) sep := by
  have hh : csv_head file header skip_n_first_rows n_rows = "" := by
    simp only [csv_head]
    rw [if_pos (le_trans (min_le_left _ _) (by omega))]
  have ht : csv_tail file header skip_n_first_rows n_rows = "" := by
    simp only [csv_tail]
    rw [if_pos (le_trans (min_le_left _ _) (by omega))]
  refine ⟨hh, ht, ?_, ?_⟩
  · simp only [read_csv_head, hh]
    exact parse_empty_data _ _ _
  · simp only [read_csv_tail, ht]
    exact parse_empty_data _ _ _

theorem negative_n_rows_accepted_witness :
    (-7 : Int) < 0 ∧
    emptyOrHeaderOnly (read_csv_head ["x,y", "1,2"] true 0 (-7) ",") "," :=
  ⟨by decide,
    (negative_n_rows_accepted ["x,y", "1,2"] true 0 (-7) "," (by decide)).2.2.1⟩

lemma mem_of_mem_drop_le {α : Type} {l : List α} {k m : Nat} (h : k ≤ m)
    {a : α} (ha : a ∈ l.drop m) : a ∈ l.drop k := by
  have hd : l.drop m = (l.drop k).drop (m - k) := by
    rw [List.drop_drop]
    congr 1
    omega
  rw [hd] at ha
  exact List.mem_of_mem_drop ha

/-- C8: the raw text handed to the parser is whitespace-stripped on the
head, tail and line-range paths (each result is a fixed point of the strip),
and when every line after the skip offset is whitespace-only — so in
particular when the resolved window holds only whitespace — the extracted
blocks are empty and the read operations yield an empty or header-only
table. -/
theorem stripped_before_parse (file : List String) (header : Bool)
    (skip_n_first_rows n_rows n rows_after_n : Int) (sep : String) :
    pyStrip (csv_head file header skip_n_first_rows n_rows)
      = csv_head file header skip_n_first_rows n_rows ∧
    pyStrip (csv_tail file header skip_n_first_rows n_rows)
      = csv_tail file header skip_n_first_rows n_rows ∧
    (∀ s, csv_line_range file n rows_after_n header skip_n_first_rows = Except.ok s →
      pyStrip s = s) ∧
    ((∀ l ∈ file.drop (skip_n_first_rows + (if header then 1 else 0)).toNat,
        ∀ c ∈ l.data, isPySpace c = true) →
      csv_head file header skip_n_first_rows n_rows = "" ∧
      csv_tail file header skip_n_first_rows n_rows = "" ∧
      emptyOrHeaderOnly (read_csv_head file header skip_n_first_rows n_rows sep) sep ∧
      emptyOrHeaderOnly (read_csv_tail file header skip_n_first_rows n_rows sep) sep ∧
      (∀ d, read_csv_line_range file n rows_after_n header skip_n_first_rows sep
          = Except.ok d → emptyOrHeaderOnly d sep)) := by
  have hstrip_head : pyStrip (csv_head file header skip_n_first_rows n_rows)
      = csv_head file header skip_n_first_rows n_rows := by
    simp only [csv_head]
    by_cases hc : min n_rows ((file.length : Int)
        - (skip_n_first_rows + (if header then 1 else 0))) ≤ 0
    · rw [if_pos hc]
      exact pyStrip_empty
    · rw [if_neg hc]
      exact pyStrip_idem _
  have hstrip_tail : pyStrip (csv_tail file header skip_n_first_rows n_rows)
      = csv_tail file header skip_n_first_rows n_rows := by
    simp only [csv_tail]
    by_cases hc : min n_rows ((file.length : Int)
        - (skip_n_first_rows + (if header then 1 else 0))) ≤ 0
    · rw [if_pos hc]
      exact pyStrip_empty
    · rw [if_neg hc]
      exact pyStrip_idem _
  have hstrip_lr : ∀ s, csv_line_range file n rows_after_n header skip_n_first_rows
      = Except.ok s → pyStrip s = s := by
    intro s hok
    rw [csv_line_range_eq] at hok
    by_cases hc : n < 1 ∨ n > (file.length : Int)
        - ((if header then 1 else 0) + skip_n_first_rows)
    · rw [if_pos hc] at hok
      cases hok
    · rw [if_neg hc] at hok
      by_cases hv : 1 ≤ (if header then 1 else 0) + skip_n_first_rows + n
          ∧ 0 ≤ (if header then 1 else 0) + skip_n_first_rows + n
              + min rows_after_n ((file.length : Int)
                  - ((if header then 1 else 0) + skip_n_first_rows) - n)
      · rw [if_pos hv] at hok
        injection hok with h
        rw [← h]
        exact pyStrip_idem _
      · rw [if_neg hv] at hok
        cases hok
  refine ⟨hstrip_head, hstrip_tail, hstrip_lr, ?_⟩
  intro hws
  have hwin_head : csv_head file header skip_n_first_rows n_rows = "" := by
    simp only [csv_head]
    by_cases hc : min n_rows ((file.length : Int)
        - (skip_n_first_rows + (if header then 1 else 0))) ≤ 0
    · rw [if_pos hc]
    · rw [if_neg hc]
      apply pyStrip_joinNl_eq_empty
      intro l hl
      apply hws l
      simp only [sedLines] at hl
      have hmem := List.mem_of_mem_take hl
      rw [show (skip_n_first_rows + (if header then 1 else 0) + 1 - 1 : Int)
          = skip_n_first_rows + (if header then 1 else 0) from by ring] at hmem
      exact hmem
  have hwin_tail : csv_tail file header skip_n_first_rows n_rows = "" := by
    simp only [csv_tail]
    by_cases hc : min n_rows ((file.length : Int)
        - (skip_n_first_rows + (if header then 1 else 0))) ≤ 0
    · rw [if_pos hc]
    · rw [if_neg hc]
      apply pyStrip_joinNl_eq_empty
      intro l hl
      apply hws l
      simp only [tailLast, tailPlus] at hl
      have hmem := List.mem_of_mem_drop hl
      rw [show (skip_n_first_rows + (if header then 1 else 0) + 1 - 1 : Int)
          = skip_n_first_rows + (if header then 1 else 0) from by ring] at hmem
      exact hmem
  refine ⟨hwin_head, hwin_tail, ?_, ?_, ?_⟩
  · simp only [read_csv_head, hwin_head]
    exact parse_empty_data _ _ _
  · simp only [read_csv_tail, hwin_tail]
    exact parse_empty_data _ _ _
  · intro d hok
    simp only [read_csv_line_range] at hok
    rw [csv_line_range_eq] at hok
    by_cases hc : n < 1 ∨ n > (file.length : Int)
        - ((if header then 1 else 0) + skip_n_first_rows)
    · rw [if_pos hc] at hok
      cases hok
    · rw [if_neg hc] at hok
      push_neg at hc
      obtain ⟨hn1, _⟩ := hc
      by_cases hv : 1 ≤ (if header then 1 else 0) + skip_n_first_rows + n
          ∧ 0 ≤ (if header then 1 else 0) + skip_n_first_rows + n
              + min rows_after_n ((file.length : Int)
                  - ((if header then 1 else 0) + skip_n_first_rows) - n)
      · rw [if_pos hv] at hok
        have hempty : pyStrip (joinNl (sedLines
            ((if header then 1 else 0) + skip_n_first_rows + n)
            ((if header then 1 else 0) + skip_n_first_rows + n
              + min rows_after_n ((file.length : Int)
                  - ((if header then 1 else 0) + skip_n_first_rows) - n)) file)) = "" := by
          apply pyStrip_joinNl_eq_empty
          intro l hl
          apply hws l
          simp only [sedLines] at hl
          have hmem := List.mem_of_mem_take hl
          refine mem_of_mem_drop_le ?_ hmem
          generalize (if header then (1 : Int) else 0) = k at hn1 ⊢
          omega
        rw [hempty] at hok
        injection hok with h
        rw [← h]
        exact parse_empty_data _ _ _
      · rw [if_neg hv] at hok
        cases hok

theorem stripped_before_parse_witness :
    (∀ l ∈ (["h,b", " ", "  "] : List String).drop
        ((0 + (if true then (1 : Int) else 0)).toNat),
      ∀ c ∈ l.data, isPySpace c = true) ∧
    emptyOrHeaderOnly (read_csv_head ["h,b", " ", "  "] true 0 5 ",") "," :=
  ⟨by decide,
    ((stripped_before_parse ["h,b", " ", "  "] true 0 5 1 0 ",").2.2.2 (by decide)).2.2.1⟩

end ReadCsvTurbo
